import Mathlib

/-!
# Verification of `modules/utils/info_util.py` (Telegram-SpottedDMI-Bot)

Shallow embedding of the `EventInfo` class and its posting routines.

Modelling conventions:
* Telegram SDK objects (`Message`, `CallbackQuery`, `Chat`, `Poll`, ...) become
  plain Lean structures holding exactly the fields the source reads; optional
  SDK fields become `Option`.
* Python `None`-returning accessors become `Option`-valued functions; an
  unhandled Python exception (`AttributeError`, `KeyError`, an uncaught
  `BadRequest`) is modelled by an outer `Option`/`Except` result being absent.
* The remote bot API is modelled by passing its responses in as parameters and
  returning the list of requests the code issued, in order.
* The external stores (`PendingPost.create`, `PublishedPost.create`,
  `context.bot_data`) are modelled as explicit values threaded through.
-/

namespace SpottedBot

/-- Embeds `telegram.Chat`: only the fields the source reads (`id`, `type`). -/
structure Chat where
  id : Int
  type : String
deriving Repr, DecidableEq

/-- Embeds the `telegram.Chat.PRIVATE` constant, the tag of a private chat. -/
def Chat.PRIVATE : String := "private"

/-- Embeds `telegram.User`: only the fields the source reads (`id`, `username`).
`username` is optional in the Telegram API. -/
structure TgUser where
  id : Int
  username : Option String
deriving Repr, DecidableEq

/-- One option of a `telegram.Poll`; the source reads only `option.text`. -/
structure PollOption where
  text : String
deriving Repr, DecidableEq

/-- Embeds `telegram.Poll`: the fields `send_post_to_admins` forwards. -/
structure Poll where
  question : String
  options : List PollOption
  type : String
  allows_multiple_answers : Bool
  correct_option_id : Option Int
deriving Repr, DecidableEq

/-- Inline keyboards produced by `keyboard_util` (outside this file's source);
the code only attaches them, never inspects them, so they are opaque tags. -/
inductive ReplyMarkup where
  | approve_kb
  | vote_kb
deriving Repr, DecidableEq

/-- Embeds `telegram.Message` without the recursive `reply_to_message` field: the
content fields tested by `is_valid_message_type`, the identities read by the
accessors, and the forward metadata read by `send_post_to_channel_group`.
Content kinds the source only truth-tests (photo, voice, ...) are modelled as
`Option String` payloads. -/
structure MessageData where
  message_id : Int
  chat : Chat
  from_user : TgUser
  text : Option String := none
  photo : Option String := none
  voice : Option String := none
  audio : Option String := none
  video : Option String := none
  animation : Option String := none
  sticker : Option String := none
  poll : Option Poll := none
  reply_markup : Option ReplyMarkup := none
  forward_from_chat : Option Chat := none
  forward_from_message_id : Option Int := none
deriving Repr, DecidableEq

/-- Embeds `message.chat_id`, the SDK shortcut for `message.chat.id`. -/
def MessageData.chat_id (m : MessageData) : Int := m.chat.id

/-- Embeds `telegram.Message`: a `MessageData` plus one level of the recursive
`reply_to_message` field (the source never nests deeper). -/
structure Message extends MessageData where
  reply_to_message : Option MessageData := none
deriving Repr, DecidableEq

/-- Embeds `telegram.CallbackQuery`: the fields the source reads. -/
structure CallbackQuery where
  id : Int
  from_user : TgUser
  data : Option String := none
  message : Option Message := none
deriving Repr, DecidableEq

/-- Embeds `telegram.Update`: the two members the factories read. -/
structure Update where
  message : Option Message := none
  callback_query : Option CallbackQuery := none
deriving Repr, DecidableEq

/-- Embeds `EventInfo.__init__` stored state. The `bot` and `ctx` handles are
external collaborators; the operations below receive their behaviour
(API responses, `bot_data`) as explicit parameters instead. -/
structure EventInfo where
  update : Option Update := none
  message : Option Message := none
  query : Option CallbackQuery := none
deriving Repr, DecidableEq

namespace EventInfo

/-- Embeds `EventInfo.chat_id`: `None` if no message, else `message.chat_id`. -/
def chat_id (e : EventInfo) : Option Int :=
  match e.message with
  | none => none
  | some m => some m.chat_id

/-- Embeds `EventInfo.chat_type`: `None` if no message, else `message.chat.type`. -/
def chat_type (e : EventInfo) : Option String :=
  match e.message with
  | none => none
  | some m => some m.chat.type

/-- Embeds `EventInfo.is_private_chat`: `None` if `chat_type` is `None`, else
whether the chat type equals `Chat.PRIVATE`. -/
def is_private_chat (e : EventInfo) : Option Bool :=
  match e.chat_type with
  | none => none
  | some t => some (t == Chat.PRIVATE)

/-- Embeds `EventInfo.text`: `None` if no message, else `message.text` (itself
possibly absent). -/
def text (e : EventInfo) : Option String :=
  match e.message with
  | none => none
  | some m => m.text

/-- Embeds `EventInfo.message_id`: `None` if no message, else `message.message_id`. -/
def message_id (e : EventInfo) : Option Int :=
  match e.message with
  | none => none
  | some m => some m.message_id

/-- Embeds `EventInfo.is_valid_message_type`: `None` if no message, else the truth
value of `message.text or message.photo or message.voice or message.audio or
message.video or message.animation or message.sticker or message.poll`
(Python returns the first truthy operand; its boolean value is modelled). -/
def is_valid_message_type (e : EventInfo) : Option Bool :=
  match e.message with
  | none => none
  | some m =>
      some (m.text.isSome || m.photo.isSome || m.voice.isSome || m.audio.isSome
        || m.video.isSome || m.animation.isSome || m.sticker.isSome || m.poll.isSome)

/-- Embeds `EventInfo.reply_markup`: `None` if no message, else the message's
`reply_markup` (itself possibly absent). -/
def reply_markup (e : EventInfo) : Option ReplyMarkup :=
  match e.message with
  | none => none
  | some m => m.reply_markup

/-- Embeds `EventInfo.user_id`: the query's sender if a query is present, else the
message's sender, else `None`. -/
def user_id (e : EventInfo) : Option Int :=
  match e.query with
  | some q => some q.from_user.id
  | none =>
      match e.message with
      | some m => some m.from_user.id
      | none => none

/-- Embeds `EventInfo.user_username`: the query's sender's username if a query is
present, else the message's sender's username, else `None`. -/
def user_username (e : EventInfo) : Option String :=
  match e.query with
  | some q => q.from_user.username
  | none =>
      match e.message with
      | some m => m.from_user.username
      | none => none

/-- Embeds `EventInfo.query_id`: `None` if no query, else `query.id`. -/
def query_id (e : EventInfo) : Option Int :=
  match e.query with
  | none => none
  | some q => some q.id

/-- Embeds `EventInfo.query_data`: `None` if no query, else `query.data` (itself
possibly absent). -/
def query_data (e : EventInfo) : Option String :=
  match e.query with
  | none => none
  | some q => q.data

/-- Embeds `EventInfo.from_message`: built from `update.message` with no query. -/
def from_message (u : Update) : EventInfo :=
  { update := some u, message := u.message, query := none }

/-- Embeds `EventInfo.from_callback`: built from `update.callback_query`; accessing
`update.callback_query.message` on an update without a query would raise, so
the absent-query case is the absent result. -/
def from_callback (u : Update) : Option EventInfo :=
  match u.callback_query with
  | none => none
  | some q => some { update := some u, message := q.message, query := some q }

/-- Embeds `EventInfo.from_job`: built from a job context, carrying neither update,
message nor query. -/
def from_job : EventInfo :=
  { update := none, message := none, query := none }

end EventInfo

/-- The `config_map['meme']` entries the source reads. -/
structure Config where
  group_id : Int
  channel_id : Int
  channel_group_id : Int
  comments : Bool
deriving Repr, DecidableEq

/-- Embeds `context.bot_data`: the in-memory correlation dictionary, string keys to
user ids, modelled as an association list with first-match lookup. -/
def BotData := List (String × Int)
deriving Repr, DecidableEq

/-- Python `bot_data[k]`: the stored value, or absent (a `KeyError`). -/
def BotData.get (bd : BotData) (k : String) : Option Int :=
  match bd with
  | [] => none
  | (k0, v0) :: rest => if k0 = k then some v0 else BotData.get rest k

/-- Python `bot_data[k] = v`: dictionary assignment (overwrites). -/
def BotData.set (bd : BotData) (k : String) (v : Int) : BotData :=
  match bd with
  | [] => [(k, v)]
  | (k0, v0) :: rest =>
      if k0 = k then (k0, v) :: rest else (k0, v0) :: BotData.set rest k v

/-- Python `del bot_data[k]`: removes the key (the `KeyError` on a missing
key is surfaced by `BotData.get` returning `none` just before).  Dictionary
keys are unique, so on the list representation this removes every binding
of `k`. -/
def BotData.del (bd : BotData) (k : String) : BotData :=
  match bd with
  | [] => []
  | (k0, v0) :: rest =>
      if k0 = k then BotData.del rest k else (k0, v0) :: BotData.del rest k

/-- The f-string key `f"{chat_id},{message_id}"` used for correlation. -/
def corrKey (chat_id message_id : Int) : String :=
  toString chat_id ++ "," ++ toString message_id

/-- Embeds `telegram.error.BadRequest`: the exception class `send_post_to_admins`
catches; carries the error text the source logs. -/
structure BadRequestErr where
  msg : String
deriving Repr, DecidableEq

/-- A request issued to the remote bot API, with the arguments the source
passes. `sendPoll` records `is_anonymous`, which the source leaves at the
Bot API default `true` (the call site's comment: "makes sure the poll is
anonym"). -/
inductive ApiCall where
  | copyMessage (chat_id : Int) (from_chat_id : Int) (message_id : Int)
      (reply_markup : Option ReplyMarkup)
  | sendPoll (chat_id : Int) (question : String) (options : List String)
      (type : String) (allows_multiple_answers : Bool)
      (correct_option_id : Option Int) (is_anonymous : Bool)
      (reply_markup : Option ReplyMarkup)
  | sendMessage (chat_id : Int) (text : String)
      (reply_markup : Option ReplyMarkup) (reply_to_message_id : Option Int)
deriving Repr, DecidableEq

/-- A `PendingPost.create(user_message=..., group_id=..., g_message_id=...)`
record: the submitter's original message and its admin-group copy. -/
structure PendingPost where
  user_message : MessageData
  group_id : Int
  g_message_id : Int
deriving Repr, DecidableEq

/-- A `PublishedPost.create(channel_id=..., c_message_id=...)` record. -/
structure PublishedPost where
  channel_id : Int
  c_message_id : Int
deriving Repr, DecidableEq

/-- Result of `EventInfo.send_post_to_admins`: the single API request it
issued, the `PendingPost` records it created, and its boolean return. -/
structure AdminsResult where
  calls : List ApiCall
  pending : List PendingPost
  ret : Bool
deriving Repr, DecidableEq

/-- Embeds `EventInfo.send_post_to_admins`.  `api` is the remote outcome of the one
`send_poll`/`copy_message` call: `.ok g_message_id` or `.error BadRequest`
(the only exception the `except` clause catches).  The outer `Option` is
absent exactly when the Python would raise an `AttributeError` before any
API call: no message, or no `reply_to_message` on it. -/
def EventInfo.send_post_to_admins (e : EventInfo) (cfg : Config)
    (api : Except BadRequestErr Int) : Option AdminsResult :=
  match e.message with
  | none => none
  | some msg =>
      match msg.reply_to_message with
      | none => none
      | some message =>
          let group_id := cfg.group_id
          let req : ApiCall :=
            match message.poll with
            | some poll =>
                .sendPoll group_id poll.question (poll.options.map PollOption.text)
                  poll.type poll.allows_multiple_answers poll.correct_option_id
                  true (some .approve_kb)
            | none =>
                .copyMessage group_id message.chat_id message.message_id
                  (some .approve_kb)
          match api with
          | .error _ => some { calls := [req], pending := [], ret := false }
          | .ok g_message_id =>
              some { calls := [req],
                     pending := [{ user_message := message, group_id := group_id,
                                   g_message_id := g_message_id }],
                     ret := true }

/-- Result of `EventInfo.send_post_to_channel`: API requests issued in
order, `PublishedPost` records created, and the updated `bot_data`. -/
structure ChannelResult where
  calls : List ApiCall
  published : List PublishedPost
  bot_data : BotData
deriving Repr, DecidableEq

/-- Embeds `EventInfo.send_post_to_channel`.  `copy_api` is the remote outcome of
the `copy_message` call (its failure is not caught and propagates, the inner
`.error`); `sign` is the value `get_user_sign(user_id)` returns.  The outer
`Option` is absent exactly when the Python would raise an `AttributeError`:
no message. -/
def EventInfo.send_post_to_channel (e : EventInfo) (cfg : Config) (user_id : Int)
    (copy_api : Except BadRequestErr Int) (sign : String) (bd : BotData) :
    Option (Except BadRequestErr ChannelResult) :=
  match e.message with
  | none => none
  | some message =>
      let channel_id := cfg.channel_id
      let reply_markup : Option ReplyMarkup :=
        if !cfg.comments then some .vote_kb else none
      let copyReq : ApiCall :=
        .copyMessage channel_id message.chat_id message.message_id reply_markup
      match copy_api with
      | .error err => some (.error err)
      | .ok c_message_id =>
          if !cfg.comments then
            some (.ok
              { calls := [copyReq,
                  .sendMessage channel_id ("by: " ++ sign) none
                    (some message.message_id)],
                published := [{ channel_id := channel_id,
                                c_message_id := c_message_id }],
                bot_data := bd })
          else
            some (.ok
              { calls := [copyReq],
                published := [],
                bot_data := bd.set (corrKey channel_id c_message_id) user_id })

/-- Result of `EventInfo.send_post_to_channel_group`: the user id recovered
from the correlation entry, the updated `bot_data`, the API requests issued,
and the `PublishedPost` records created. -/
structure GroupResult where
  user_id : Int
  bot_data : BotData
  calls : List ApiCall
  published : List PublishedPost
deriving Repr, DecidableEq

/-- Embeds `EventInfo.send_post_to_channel_group`.  `signOf` is the behaviour of
`get_user_sign` on the recovered user id; `post_message_id` is the remote
result of the `send_message` call.  The outer `Option` is absent exactly
when the Python raises before any API call: no message, no
`forward_from_chat` (an `AttributeError`), or no matching correlation entry
(a `KeyError`; an absent `forward_from_message_id` formats as the key suffix
"None", which never matches a stored integer-formatted key, hence the same
`KeyError`). -/
def EventInfo.send_post_to_channel_group (e : EventInfo) (cfg : Config)
    (signOf : Int → String) (post_message_id : Int) (bd : BotData) :
    Option GroupResult :=
  match e.message with
  | none => none
  | some message =>
      let channel_group_id := cfg.channel_group_id
      match message.forward_from_chat, message.forward_from_message_id with
      | some fchat, some fid =>
          let key := corrKey fchat.id fid
          match bd.get key with
          | none => none
          | some user_id =>
              let bd2 := bd.del key
              let sign := signOf user_id
              some { user_id := user_id,
                     bot_data := bd2,
                     calls := [.sendMessage channel_group_id ("by: " ++ sign)
                                 (some .vote_kb) (some message.message_id)],
                     published := [{ channel_id := channel_group_id,
                                     c_message_id := post_message_id }] }
      | _, _ => none

/-- Python `s.split(sep)` for a single-character separator, on the string's
character list: splits at every occurrence, keeping empty pieces, and always
returns at least one piece. -/
def pySplitChars (sep : Char) : List Char → List (List Char)
  | [] => [[]]
  | c :: rest =>
      let r := pySplitChars sep rest
      if c = sep then [] :: r
      else
        match r with
        | [] => [[c]]
        | h :: t => (c :: h) :: t

/-- Python `s.split(sep)` for a single-character separator. -/
def pySplit (s : String) (sep : Char) : List String :=
  (pySplitChars sep s.data).map List.asString

/-- Python `random.choice(xs)`: an arbitrary draw, modelled by an external
index `rand`; absent exactly when the list is empty (an `IndexError`). -/
def pyChoice (rand : Nat) (xs : List α) : Option α :=
  xs[rand % xs.length]?

/-- Embeds `EventInfo.get_user_sign`.  External collaborators as parameters:
`anonym_names` is the text of `read_md("anonym_names")`, `rand` the
randomness consumed by `choice`, `is_credited` the stored
`User(user_id).is_credited` flag, and `chat_username` the
`bot.getChat(user_id).username` value (absent when the user has none). -/
def EventInfo.get_user_sign (anonym_names : String) (rand : Nat)
    (is_credited : Bool) (chat_username : Option String) : Option String :=
  match pyChoice rand (pySplit anonym_names '\n') with
  | none => none
  | some chosen =>
      let sign := chosen
      let sign :=
        if is_credited then
          match chat_username with
          | some username => if username ≠ "" then "@" ++ username else sign
          | none => sign
        else sign
      some sign

/-! ## Helper lemmas about the embedded collaborators -/

theorem BotData.get_set_self (bd : BotData) (k : String) (v : Int) :
    (bd.set k v).get k = some v := by
  induction bd with
  | nil => simp [BotData.set, BotData.get]
  | cons p rest ih =>
      obtain ⟨k0, v0⟩ := p
      by_cases h : k0 = k <;> simp [BotData.set, BotData.get, h, ih]

theorem BotData.get_del_self (bd : BotData) (k : String) :
    (bd.del k).get k = none := by
  induction bd with
  | nil => simp [BotData.del, BotData.get]
  | cons p rest ih =>
      obtain ⟨k0, v0⟩ := p
      by_cases h : k0 = k <;> simp [BotData.del, BotData.get, h, ih]

theorem pySplitChars_ne_nil (sep : Char) (l : List Char) :
    pySplitChars sep l ≠ [] := by
  induction l with
  | nil => simp [pySplitChars]
  | cons c rest ih =>
      simp only [pySplitChars]
      by_cases h : c = sep
      · simp [h]
      · simp only [h, if_false]
        cases hr : pySplitChars sep rest <;> simp

theorem pySplit_ne_nil (s : String) (sep : Char) : pySplit s sep ≠ [] := by
  simp [pySplit, pySplitChars_ne_nil]

theorem pyChoice_isSome {α : Type} (rand : Nat) (xs : List α) (h : xs ≠ []) :
    (pyChoice rand xs).isSome := by
  have hlen : 0 < xs.length := List.length_pos.mpr h
  have hlt : rand % xs.length < xs.length := Nat.mod_lt _ hlen
  simp [pyChoice, List.getElem?_eq_getElem hlt]

theorem pyChoice_mem {α : Type} {rand : Nat} {xs : List α} {v : α}
    (h : pyChoice rand xs = some v) : v ∈ xs := by
  simpa using List.getElem?_mem h

/-! ## Concrete sample data used by the witnesses -/

def userA : TgUser := { id := 7, username := some "alice" }

def userB : TgUser := { id := 8, username := some "bob" }

def chatP : Chat := { id := 100, type := "private" }

def sampleMsg : Message :=
  { message_id := 10, chat := chatP, from_user := userB, text := some "hi" }

def sampleQuery : CallbackQuery :=
  { id := 55, from_user := userA, data := some "d", message := some sampleMsg }

def samplePoll : Poll :=
  { question := "q?", options := [{ text := "a" }, { text := "b" }],
    type := "regular", allows_multiple_answers := false,
    correct_option_id := some 1 }

def origText : MessageData :=
  { message_id := 3, chat := chatP, from_user := userB, text := some "meme" }

def origPoll : MessageData :=
  { message_id := 5, chat := chatP, from_user := userB, poll := some samplePoll }

def replyMsg : Message :=
  { message_id := 4, chat := chatP, from_user := userB,
    text := some "/spot", reply_to_message := some origText }

def replyPollMsg : Message :=
  { message_id := 6, chat := chatP, from_user := userB,
    text := some "/spot", reply_to_message := some origPoll }

def cfg0 : Config :=
  { group_id := 500, channel_id := 200, channel_group_id := 300,
    comments := false }

def cfg1 : Config :=
  { group_id := 500, channel_id := 200, channel_group_id := 300,
    comments := true }

/-! ## Claims -/

/-- C5: for every EventInfo carrying neither a message nor a callback query
(as built by `from_job`), every derived accessor returns the absent sentinel
`none` and never throws. -/
theorem claim_C5_accessors_absent (e : EventInfo)
    (hm : e.message = none) (hq : e.query = none) :
    e.chat_id = none ∧ e.chat_type = none ∧ e.is_private_chat = none ∧
    e.text = none ∧ e.message_id = none ∧ e.is_valid_message_type = none ∧
    e.reply_markup = none ∧ e.user_id = none ∧ e.user_username = none ∧
    e.query_id = none ∧ e.query_data = none := by
  simp [EventInfo.chat_id, EventInfo.chat_type, EventInfo.is_private_chat,
    EventInfo.text, EventInfo.message_id, EventInfo.is_valid_message_type,
    EventInfo.reply_markup, EventInfo.user_id, EventInfo.user_username,
    EventInfo.query_id, EventInfo.query_data, hm, hq]

/-- C5 witness: the EventInfo built by `from_job` satisfies the theorem. -/
theorem claim_C5_accessors_absent_witness :
    EventInfo.from_job.chat_id = none ∧ EventInfo.from_job.chat_type = none ∧
    EventInfo.from_job.is_private_chat = none ∧ EventInfo.from_job.text = none ∧
    EventInfo.from_job.message_id = none ∧
    EventInfo.from_job.is_valid_message_type = none ∧
    EventInfo.from_job.reply_markup = none ∧ EventInfo.from_job.user_id = none ∧
    EventInfo.from_job.user_username = none ∧ EventInfo.from_job.query_id = none ∧
    EventInfo.from_job.query_data = none :=
  claim_C5_accessors_absent EventInfo.from_job rfl rfl

/-- C6: with a message present, `is_valid_message_type` is `true` iff the
message carries at least one of the eight content kinds
{text, photo, voice, audio, video, animation, sticker, poll}. -/
theorem claim_C6_valid_message_type (e : EventInfo) (m : Message)
    (hm : e.message = some m) :
    e.is_valid_message_type = some true ↔
      (m.text.isSome = true ∨ m.photo.isSome = true ∨ m.voice.isSome = true ∨
       m.audio.isSome = true ∨ m.video.isSome = true ∨ m.animation.isSome = true ∨
       m.sticker.isSome = true ∨ m.poll.isSome = true) := by
  simp [EventInfo.is_valid_message_type, hm, Bool.or_eq_true, or_assoc]

/-- C6 witness: a sticker-only message is a valid message type. -/
theorem claim_C6_valid_message_type_witness :
    (EventInfo.mk none
        (some { message_id := 11, chat := chatP, from_user := userB,
                sticker := some "s" }) none).is_valid_message_type
      = some true :=
  (claim_C6_valid_message_type _ _ rfl).mpr (by simp)

/-- C8: `user_id`/`user_username` come from the callback query's sender when
a query is present (even when the message's sender differs), else from the
message's sender, else are absent. -/
theorem claim_C8_user_identity (e : EventInfo) :
    (∀ q : CallbackQuery, e.query = some q →
        e.user_id = some q.from_user.id ∧
        e.user_username = q.from_user.username) ∧
    (e.query = none → ∀ m : Message, e.message = some m →
        e.user_id = some m.from_user.id ∧
        e.user_username = m.from_user.username) ∧
    (e.query = none → e.message = none →
        e.user_id = none ∧ e.user_username = none) := by
  refine ⟨fun q hq => ?_, fun hq m hm => ?_, fun hq hm => ?_⟩ <;>
    simp_all [EventInfo.user_id, EventInfo.user_username]

/-- C8 witness: on a context whose query sender (id 7) differs from the
message sender (id 8), the accessors report the query's sender. -/
theorem claim_C8_user_identity_witness :
    (EventInfo.mk none (some sampleMsg) (some sampleQuery)).user_id = some 7 ∧
    (EventInfo.mk none (some sampleMsg) (some sampleQuery)).user_username
      = some "alice" :=
  (claim_C8_user_identity (EventInfo.mk none (some sampleMsg)
      (some sampleQuery))).1 sampleQuery rfl

/-- C2: `send_post_to_admins` returns `false` and creates no `PendingPost`
when the API call fails; on success it creates exactly one `PendingPost`
linking the original message to its admin-group copy and returns `true`;
in both cases it returns a boolean rather than raising. -/
theorem claim_C2_admins_outcome (e : EventInfo) (cfg : Config) (m : Message)
    (orig : MessageData) (hm : e.message = some m)
    (hr : m.reply_to_message = some orig) :
    (∀ err : BadRequestErr, ∃ r : AdminsResult,
        e.send_post_to_admins cfg (.error err) = some r ∧
        r.ret = false ∧ r.pending = []) ∧
    (∀ gid : Int, ∃ r : AdminsResult,
        e.send_post_to_admins cfg (.ok gid) = some r ∧
        r.ret = true ∧
        r.pending = [{ user_message := orig, group_id := cfg.group_id,
                       g_message_id := gid }]) ∧
    (∀ api : Except BadRequestErr Int,
        (e.send_post_to_admins cfg api).isSome = true) := by
  refine ⟨fun err => ?_, fun gid => ?_, fun api => ?_⟩
  · cases hp : orig.poll <;> simp [EventInfo.send_post_to_admins, hm, hr, hp]
  · cases hp : orig.poll <;> simp [EventInfo.send_post_to_admins, hm, hr, hp]
  · cases api <;> cases hp : orig.poll <;>
      simp [EventInfo.send_post_to_admins, hm, hr, hp]

/-- C2 witness: at a concrete non-poll reply, success with admin-copy id 42
yields one `PendingPost` and `ret = true`. -/
theorem claim_C2_admins_outcome_witness :
    ∃ r : AdminsResult,
      (EventInfo.mk none (some replyMsg) none).send_post_to_admins cfg0
          (.ok 42) = some r ∧
      r.ret = true ∧
      r.pending = [{ user_message := origText, group_id := 500,
                     g_message_id := 42 }] :=
  (claim_C2_admins_outcome (EventInfo.mk none (some replyMsg) none) cfg0
      replyMsg origText rfl rfl).2.1 42

/-- C7: the admin-group request preserves a poll's question, option order,
type, multiple-answers flag and correct-option id exactly, anonymously and
with the approve control; a non-poll original is copied from its own chat id
and message id with the same control. -/
theorem claim_C7_admins_request (e : EventInfo) (cfg : Config)
    (api : Except BadRequestErr Int) (m : Message) (orig : MessageData)
    (hm : e.message = some m) (hr : m.reply_to_message = some orig) :
    (∀ poll : Poll, orig.poll = some poll → ∀ r : AdminsResult,
        e.send_post_to_admins cfg api = some r →
        r.calls = [.sendPoll cfg.group_id poll.question
                     (poll.options.map PollOption.text) poll.type
                     poll.allows_multiple_answers poll.correct_option_id
                     true (some .approve_kb)]) ∧
    (orig.poll = none → ∀ r : AdminsResult,
        e.send_post_to_admins cfg api = some r →
        r.calls = [.copyMessage cfg.group_id orig.chat_id orig.message_id
                     (some .approve_kb)]) := by
  refine ⟨fun poll hp r hrr => ?_, fun hp r hrr => ?_⟩ <;>
    cases api <;>
    simp [EventInfo.send_post_to_admins, hm, hr, hp] at hrr <;>
    simp [← hrr]

/-- C7 witness: at a concrete poll reply, the issued request is an anonymous
`sendPoll` with the original's question, options in order, type,
multiple-answers flag and correct-option id, and the approve control. -/
theorem claim_C7_admins_request_witness :
    ∃ r : AdminsResult,
      (EventInfo.mk none (some replyPollMsg) none).send_post_to_admins cfg0
          (.ok 42) = some r ∧
      r.calls = [.sendPoll 500 "q?" ["a", "b"] "regular" false (some 1)
                   true (some .approve_kb)] :=
  ⟨_, rfl,
    (claim_C7_admins_request (EventInfo.mk none (some replyPollMsg) none) cfg0
        (.ok 42) replyPollMsg origPoll rfl rfl).1 samplePoll rfl _ rfl⟩

/-- C4: with comments enabled, `send_post_to_channel` copies the message
into the channel with no reply markup, creates no `PublishedPost`, sends no
attribution message (the copy is the only API request), and records the
correlation entry mapping `(channel_id, new_message_id)` to the user id. -/
theorem claim_C4_channel_comments_enabled (e : EventInfo) (cfg : Config)
    (user_id c_message_id : Int) (sign : String) (bd : BotData) (m : Message)
    (hm : e.message = some m) (hc : cfg.comments = true) :
    e.send_post_to_channel cfg user_id (.ok c_message_id) sign bd =
      some (.ok
        { calls := [.copyMessage cfg.channel_id m.chat_id m.message_id none],
          published := [],
          bot_data := bd.set (corrKey cfg.channel_id c_message_id) user_id }) ∧
    (bd.set (corrKey cfg.channel_id c_message_id) user_id).get
        (corrKey cfg.channel_id c_message_id) = some user_id := by
  constructor
  · simp [EventInfo.send_post_to_channel, hm, hc]
  · exact BotData.get_set_self bd _ user_id

/-- C4 witness: a concrete copy into channel 200 as message 77 records the
entry `(200, 77) ↦ 7` and issues no further API request. -/
theorem claim_C4_channel_comments_enabled_witness :
    (EventInfo.mk none (some sampleMsg) none).send_post_to_channel cfg1 7
        (.ok 77) "x" [] =
      some (.ok
        { calls := [.copyMessage cfg1.channel_id sampleMsg.chat_id
                      sampleMsg.message_id none],
          published := [],
          bot_data := BotData.set [] (corrKey cfg1.channel_id 77) 7 }) ∧
    (BotData.set [] (corrKey cfg1.channel_id 77) 7).get
        (corrKey cfg1.channel_id 77) = some 7 :=
  claim_C4_channel_comments_enabled (EventInfo.mk none (some sampleMsg) none)
    cfg1 7 77 "x" [] sampleMsg rfl rfl

/-- C1 (divergence): with comments disabled, the attribution message is sent
with `reply_to_message_id = message.message_id` (the id of the message being
copied, here 10), not the channel copy's id returned by `copy_message`
(here 99): the reply is not attached under the newly created channel copy. -/
theorem claim_C1_attribution_reply_target :
    ∃ r : ChannelResult,
      (EventInfo.mk none (some sampleMsg) none).send_post_to_channel cfg0 7
          (.ok 99) "alice" [] = some (.ok r) ∧
      r.calls = [.copyMessage 200 100 10 (some .vote_kb),
                 .sendMessage 200 "by: alice" none (some 10)] ∧
      (10 : Int) ≠ 99 :=
  ⟨_, rfl, by decide, by decide⟩

/-- C3: `send_post_to_channel_group` reads the correlation entry matching the
echoed message's forward-source identifiers, recovers the stored user id,
deletes the entry (it is absent afterwards), and a second call with the same
identifiers finds no entry (a `KeyError` in the source). -/
theorem claim_C3_correlation_consumed (e : EventInfo) (cfg : Config)
    (signOf : Int → String) (pmid : Int) (bd : BotData) (m : Message)
    (fchat : Chat) (fid uid : Int)
    (hm : e.message = some m)
    (hfc : m.forward_from_chat = some fchat)
    (hfi : m.forward_from_message_id = some fid)
    (hstored : bd.get (corrKey fchat.id fid) = some uid) :
    ∃ r : GroupResult,
      e.send_post_to_channel_group cfg signOf pmid bd = some r ∧
      r.user_id = uid ∧
      r.bot_data = bd.del (corrKey fchat.id fid) ∧
      r.bot_data.get (corrKey fchat.id fid) = none ∧
      e.send_post_to_channel_group cfg signOf pmid r.bot_data = none := by
  refine ⟨{ user_id := uid,
            bot_data := bd.del (corrKey fchat.id fid),
            calls := [.sendMessage cfg.channel_group_id ("by: " ++ signOf uid)
                        (some .vote_kb) (some m.message_id)],
            published := [{ channel_id := cfg.channel_group_id,
                            c_message_id := pmid }] }, ?_, rfl, rfl, ?_, ?_⟩
  · simp [EventInfo.send_post_to_channel_group, hm, hfc, hfi, hstored]
  · exact BotData.get_del_self bd _
  · simp [EventInfo.send_post_to_channel_group, hm, hfc, hfi,
      BotData.get_del_self]

/-- An echoed discussion-group message forwarded from channel 200, post 77. -/
def echoMsg : Message :=
  { message_id := 12, chat := { id := 300, type := "supergroup" },
    from_user := userB,
    forward_from_chat := some { id := 200, type := "channel" },
    forward_from_message_id := some 77 }

/-- C3 witness: with the single stored entry `(200, 77) ↦ 7`, the call
recovers user 7, the entry is gone afterwards, and a repeat call fails. -/
theorem claim_C3_correlation_consumed_witness :
    ∃ r : GroupResult,
      (EventInfo.mk none (some echoMsg) none).send_post_to_channel_group cfg1
          (fun _ => "anon") 88 [(corrKey 200 77, 7)] = some r ∧
      r.user_id = 7 ∧
      r.bot_data = BotData.del [(corrKey 200 77, 7)] (corrKey 200 77) ∧
      r.bot_data.get (corrKey 200 77) = none ∧
      (EventInfo.mk none (some echoMsg) none).send_post_to_channel_group cfg1
          (fun _ => "anon") 88 r.bot_data = none :=
  claim_C3_correlation_consumed (EventInfo.mk none (some echoMsg) none) cfg1
    (fun _ => "anon") 88 [(corrKey 200 77, 7)] echoMsg
    { id := 200, type := "channel" } 77 7 rfl rfl rfl (by simp [BotData.get])

/-- C9: for a non-credited user the sign is one of the lines of the
configured anonymous-names text; for a credited user with a non-empty
resolved handle the sign is exactly "@" followed by the handle. -/
theorem claim_C9_user_sign (names : String) (rand : Nat) (u : Option String) :
    (∃ s, EventInfo.get_user_sign names rand false u = some s ∧
        s ∈ pySplit names '\n') ∧
    (∀ h : String, u = some h → h ≠ "" →
        EventInfo.get_user_sign names rand true u = some ("@" ++ h)) := by
  constructor
  · obtain ⟨v, hv⟩ := Option.isSome_iff_exists.mp
      (pyChoice_isSome rand _ (pySplit_ne_nil names '\n'))
    exact ⟨v, by simp [EventInfo.get_user_sign, hv], pyChoice_mem hv⟩
  · intro h hu hne0
    obtain ⟨v, hv⟩ := Option.isSome_iff_exists.mp
      (pyChoice_isSome rand _ (pySplit_ne_nil names '\n'))
    subst hu
    simp [EventInfo.get_user_sign, hv, hne0]

/-- C9 witness: a credited user resolving to handle "bob" is signed "@bob". -/
theorem claim_C9_user_sign_witness :
    EventInfo.get_user_sign "anon one\nanon two" 3 true (some "bob")
      = some ("@" ++ "bob") :=
  (claim_C9_user_sign "anon one\nanon two" 3 (some "bob")).2 "bob" rfl
    (by decide)

/-- C10: for a credited user whose resolved handle is absent or empty, the
sign falls back to one of the lines of the anonymous-names text. -/
theorem claim_C10_sign_fallback (names : String) (rand : Nat)
    (u : Option String) (habs : u = none ∨ u = some "") :
    ∃ s, EventInfo.get_user_sign names rand true u = some s ∧
      s ∈ pySplit names '\n' := by
  obtain ⟨v, hv⟩ := Option.isSome_iff_exists.mp
    (pyChoice_isSome rand _ (pySplit_ne_nil names '\n'))
  refine ⟨v, ?_, pyChoice_mem hv⟩
  rcases habs with h | h <;> subst h <;> simp [EventInfo.get_user_sign, hv]

/-- C10 witness: a credited user with an empty resolved handle still gets an
anonymous-list sign. -/
theorem claim_C10_sign_fallback_witness :
    ∃ s, EventInfo.get_user_sign "anon one\nanon two" 1 true (some "")
        = some s ∧
      s ∈ pySplit "anon one\nanon two" '\n' :=
  claim_C10_sign_fallback "anon one\nanon two" 1 (some "") (Or.inr rfl)

end SpottedBot
